import Mathlib

/-!
# telegram-proposal-me: the `/report` handler of `bot.js`

A shallow embedding of `src/bot.js` and `src/prompt.js`.

* A JavaScript string is the list of its UTF-16 code units (`JsString`), so
  that `length`, `slice`, `trim`, `split` and `includes` act on the same units
  as in the engine.
* The external collaborators (chat transport, generation service, filesystem,
  compiler subprocess, uuid source) are oracles collected in a `World`; the
  code is run in an exception-and-state monad `Js` whose state records the
  ordered list of external effects that were attempted and the set of files
  that exist in the filesystem.
* Thrown values are `Error` objects carrying a string `message`; every awaited
  collaborator call settles (a call that never settles is outside the model).
  `console.log/error/warn` only write to the process log and are not recorded.
-/

set_option maxRecDepth 100000

namespace ReportBot

/-! ## Strings -/

/-- A JavaScript string, as the list of its UTF-16 code units. -/
abbrev JsString := List Nat

/-- UTF-16 encoding of one code point. -/
def charUnits (c : Char) : List Nat :=
  if c.toNat < 65536 then [c.toNat]
  else [55296 + (c.toNat - 65536) / 1024, 56320 + (c.toNat - 65536) % 1024]

/-- UTF-16 encoding of a list of code points. -/
def unitsOf : List Char → JsString
  | [] => []
  | c :: cs => charUnits c ++ unitsOf cs

/-- The JavaScript string written by a source literal. -/
def js (s : String) : JsString := unitsOf s.toList

/-- Code unit of the line feed, the `"\n"` of the source. -/
def LF : Nat := 10

/-- ECMAScript `WhiteSpace` or `LineTerminator` code units: what `trim()` strips
and what `\s` matches. -/
def isWhiteSpace (c : Nat) : Bool :=
  c == 9 || c == 10 || c == 11 || c == 12 || c == 13 || c == 32 || c == 160 ||
  c == 5760 || (8192 ≤ c && c ≤ 8202) || c == 8232 || c == 8233 || c == 8239 ||
  c == 8287 || c == 12288 || c == 65279

/-- `String.prototype.trimStart`. -/
def trimStart (s : JsString) : JsString := s.dropWhile isWhiteSpace

/-- `String.prototype.trimEnd`. -/
def trimEnd (s : JsString) : JsString := (s.reverse.dropWhile isWhiteSpace).reverse

/-- `String.prototype.trim`. -/
def trim (s : JsString) : JsString := trimEnd (trimStart s)

/-- `pat` occurs in `s` at position 0. -/
def startsWith : JsString → JsString → Bool
  | [], _ => true
  | _ :: _, [] => false
  | p :: ps, c :: cs => p == c && startsWith ps cs

/-- `s.includes(pat)`: `pat` occurs in `s` at some position. -/
def includes : JsString → JsString → Bool
  | [], pat => startsWith pat []
  | c :: cs, pat => startsWith pat (c :: cs) || includes cs pat

/-- `s.split("\n")`: the pieces of `s` between line feeds (never an empty array). -/
def splitNewline : JsString → List JsString
  | [] => [[]]
  | c :: cs =>
    if c = LF then [] :: splitNewline cs
    else
      match splitNewline cs with
      | [] => [[c]]
      | l :: ls => (c :: l) :: ls

/-- `pieces.join("\n")`. -/
def joinNewline : List JsString → JsString
  | [] => []
  | [l] => l
  | l :: ls => l ++ LF :: joinNewline ls

/-- `a || b` on strings: the empty string is the only falsy string. -/
def orElse (a b : JsString) : JsString := if a = [] then b else a

/-- `s.slice(0, n)`. -/
def sliceTo (n : Nat) (s : JsString) : JsString := s.take n

/-- Canonicalisation of a code unit under the `i` flag (no `u` flag): exact on
ASCII, where `a`..`z` map to `A`..`Z`; a unit of 128 or more never canonicalises
to an ASCII unit, so it is kept as it is, which is all a match against an ASCII
pattern can observe. -/
def canonicalize (c : Nat) : Nat := if 97 ≤ c ∧ c ≤ 122 then c - 32 else c

/-- Match the literal `pat` case-insensitively at the start of `s`; the rest of
`s` after the match. -/
def stripIgnoreCase : JsString → JsString → Option JsString
  | [], s => some s
  | _ :: _, [] => none
  | p :: ps, c :: cs => if canonicalize c = canonicalize p then stripIgnoreCase ps cs else none

/-- `text.replace(/^\/report\s*/i, "")`. -/
def removeReportCommand (text : JsString) : JsString :=
  match stripIgnoreCase (js "/report") text with
  | some rest => rest.dropWhile isWhiteSpace
  | none => text

/-! ## Parsing stage of the handler (bot.js, lines 106-120) -/

/-- Line 107: `text.replace(/^\/report\s*/i, "").trim()`. -/
def payloadOf (text : JsString) : JsString := trim (removeReportCommand text)

/-- Line 116, the description of a single-line request. -/
def singleLineDescription : JsString :=
  js "Please provide description in the same message after newline or run again."

/-- Lines 109-120: the title and description of a request, or `none` on the
usage branch. -/
def parsePayload (payload : JsString) : Option (JsString × JsString) :=
  let firstLine := trim ((splitNewline payload).headD [])
  if includes payload (js "\n") then
    some (orElse firstLine (js "Report"),
      orElse (trim (joinNewline ((splitNewline payload).drop 1))) (js "No description provided."))
  else if payload.length > 0 then
    some (payload, singleLineDescription)
  else none

/-- Lines 106-120 on the message text. -/
def parseReport (text : JsString) : Option (JsString × JsString) :=
  parsePayload (payloadOf text)

/-- The text before the first line feed. -/
def beforeFirstNewline (s : JsString) : JsString := s.takeWhile (fun c => c != LF)

/-- The text after the first line feed (empty when there is none). -/
def afterFirstNewline (s : JsString) : JsString := (s.dropWhile (fun c => c != LF)).drop 1

/-- Reference definition of parsing, following the specification's words: a
payload without a newline is the title and the description is the fixed
placeholder; otherwise the title is the trimmed text before the first newline,
or "Report", and the description the trimmed text after it, or
"No description provided.". -/
def referenceParse (payload : JsString) : JsString × JsString :=
  if LF ∈ payload then
    (if trim (beforeFirstNewline payload) = [] then js "Report"
      else trim (beforeFirstNewline payload),
     if trim (afterFirstNewline payload) = [] then js "No description provided."
      else trim (afterFirstNewline payload))
  else (payload, singleLineDescription)

/-! ## Effects, collaborators and the execution monad -/

/-- A thrown `Error` object. -/
structure JsError where
  message : JsString
deriving DecidableEq

/-- One attempted call to an external collaborator. -/
inductive Effect
  | reply (text : JsString)
  | replyWithDocument (source filename : JsString)
  | chatCompletion (model system user : JsString)
  | writeFile (path content : JsString)
  | spawn (command : JsString) (args : List JsString) (cwd : JsString)
  | unlink (path : JsString)
deriving DecidableEq

/-- What `openai.chat.completions.create` settles to. -/
inductive Completion
  | content (text : JsString)
  | noContent
  | rejected (e : JsError)
deriving DecidableEq

/-- How a spawned process settles the promise of `runOnce`: a `close` event with
an exit code (`none` is the `null` code of a process ended by a signal) or an
`error` event. -/
inductive ProcessEnd
  | close (code : Option Int)
  | error (e : JsError)
deriving DecidableEq

/-- One run of the compiler subprocess: its captured streams, how it ended and
what it did to the set of existing files. -/
structure ProcessRun where
  stdout : JsString
  stderr : JsString
  ending : ProcessEnd
  filesAfter : List JsString → List JsString

/-- The behaviour of the external collaborators during one request. The chat
transport, the generation service and the compiler are indexed by the number
of earlier calls to them. -/
structure World where
  chat : Nat → Option JsError
  completions : Nat → JsString → Completion
  uuid : JsString
  tmpDir : JsString
  writeError : JsString → Option JsError
  pdflatex : Nat → ProcessRun
  unlinkError : JsString → Option JsError

/-- The observable state: the effects attempted so far, in order, and the files
that exist. -/
structure St where
  trace : List Effect
  files : List JsString
deriving DecidableEq

/-- The state at the start of a request. -/
def St.init (files : List JsString) : St := { trace := [], files := files }

/-- How a computation ends. -/
inductive Outcome (α : Type)
  | ok (value : α)
  | threw (e : JsError)
deriving DecidableEq

/-- Computations that may throw and that act on the state. -/
def Js (α : Type) : Type := St → Outcome α × St

/-- Sequencing: a throw skips the rest. -/
def Js.bind {α β : Type} (m : Js α) (f : α → Js β) : Js β := fun s =>
  match m s with
  | (Outcome.ok a, s1) => f a s1
  | (Outcome.threw e, s1) => (Outcome.threw e, s1)

instance : Monad Js where
  pure a := fun s => (Outcome.ok a, s)
  bind := Js.bind

/-- The statement `throw e`. -/
def throwJs {α : Type} (e : JsError) : Js α := fun s => (Outcome.threw e, s)

/-- The shape `try { v = body } catch (err) { onThrow } ; onOk v`, where the
`catch` block leaves the enclosing function when it is done. -/
def tryCatch {α β : Type} (body : Js α) (onThrow : JsError → Js β) (onOk : α → Js β) : Js β :=
  fun s =>
    match body s with
    | (Outcome.ok a, s1) => onOk a s1
    | (Outcome.threw e, s1) => onThrow e s1

/-- Is the effect a call to the chat transport. -/
def Effect.isChat : Effect → Bool
  | Effect.reply _ => true
  | Effect.replyWithDocument _ _ => true
  | _ => false

/-- Is the effect a call to the generation service. -/
def Effect.isCompletion : Effect → Bool
  | Effect.chatCompletion _ _ _ => true
  | _ => false

/-- Is the effect a compiler subprocess. -/
def Effect.isSpawn : Effect → Bool
  | Effect.spawn _ _ _ => true
  | _ => false

/-- Number of calls to the chat transport so far. -/
def chatCalls (s : St) : Nat := s.trace.countP Effect.isChat

/-- Number of calls to the generation service so far. -/
def completionCalls (s : St) : Nat := s.trace.countP Effect.isCompletion

/-- Number of compiler subprocesses spawned so far. -/
def spawnCalls (s : St) : Nat := s.trace.countP Effect.isSpawn

/-- `await ctx.reply(text)`. -/
def reply (w : World) (text : JsString) : Js Unit := fun s =>
  let s1 : St := { s with trace := s.trace ++ [Effect.reply text] }
  match w.chat (chatCalls s) with
  | none => (Outcome.ok (), s1)
  | some e => (Outcome.threw e, s1)

/-- `await ctx.replyWithDocument({ source: fs.createReadStream(source), filename })`. -/
def replyWithDocument (w : World) (source filename : JsString) : Js Unit := fun s =>
  let s1 : St := { s with trace := s.trace ++ [Effect.replyWithDocument source filename] }
  match w.chat (chatCalls s) with
  | none => (Outcome.ok (), s1)
  | some e => (Outcome.threw e, s1)

/-- `fs.existsSync(path)`. -/
def existsSync (path : JsString) : Js Bool := fun s => (Outcome.ok (s.files.contains path), s)

/-- Lines 45-47, `fs.writeFileSync(filePath, content, { encoding: "utf-8" })`. -/
def writeFileSyncAtomic (w : World) (filePath content : JsString) : Js Unit := fun s =>
  let t := s.trace ++ [Effect.writeFile filePath content]
  match w.writeError filePath with
  | some e => (Outcome.threw e, { s with trace := t })
  | none =>
    (Outcome.ok (),
      { trace := t, files := if s.files.contains filePath then s.files else s.files ++ [filePath] })

/-- `fs.unlinkSync(path)`: throws when the file is missing or cannot be removed. -/
def unlinkSync (w : World) (path : JsString) : Js Unit := fun s =>
  let t := s.trace ++ [Effect.unlink path]
  match w.unlinkError path with
  | some e => (Outcome.threw e, { s with trace := t })
  | none =>
    if s.files.contains path then
      (Outcome.ok (), { trace := t, files := s.files.filter (fun p => p != path) })
    else
      (Outcome.threw ⟨js "ENOENT: no such file or directory, unlink '" ++ path ++ js "'"⟩,
        { s with trace := t })

/-! ## prompt.js -/

/-- The template literal of `createPromptReturnOnlyLatex` (prompt.js, lines 1-16). -/
def createPromptReturnOnlyLatex (title description : JsString) : JsString :=
  js "You are a LaTeX-generating assistant.\nProduce a complete, compilable LaTeX document (a single .tex file) for a professional report with this TITLE and DESCRIPTION.\n\nTitle: "
    ++ title ++ js "\nDescription: " ++ description
    ++ js "\n\nImportant instructions:\n- Return ONLY the raw LaTeX code (no surrounding markdown, no explanations, no backticks).\n- Ensure the preamble includes necessary packages (e.g., article/report, amsmath, graphicx).\n- Make the document self-contained and compilable with pdflatex.\n- Keep the content realistic, but brief (1–4 pages).\n- If including images, don't include external images; use placeholders or omit them.\n\nStart with \\documentclass and produce a single .tex file content only."

/-! ## generateLatexWithRetry (bot.js, lines 49-79) -/

/-- The document-start marker looked for on line 68. -/
def documentStartMarker : JsString := js "\\documentclass"

/-- The error thrown on line 69. -/
def invalidLatexError : JsError := ⟨js "OpenAI returned invalid LaTeX."⟩

/-- Line 66: `resp.choices?.[0]?.message?.content || ""`. -/
def Completion.text : Completion → JsString
  | Completion.content t => t
  | _ => []

/-- Lines 56-64: the awaited call to `openai.chat.completions.create`. The
sampling temperature and the token cap are constants of the request and are
not recorded. -/
def chatCompletionsCreate (w : World) (prompt : JsString) : Js Completion := fun s =>
  let s1 : St := { s with trace := s.trace ++ [Effect.chatCompletion (js "gpt-4o-mini")
    (js "You are a helpful assistant that outputs valid LaTeX documents.") prompt] }
  match w.completions (completionCalls s) prompt with
  | Completion.rejected e => (Outcome.threw e, s1)
  | c => (Outcome.ok c, s1)

/-- Lines 52-72, the body of the `try` block of one attempt. -/
def attemptOnce (w : World) (title description : JsString) : Js JsString := do
  let prompt := createPromptReturnOnlyLatex title description
  let resp ← chatCompletionsCreate w prompt
  let latex := resp.text
  if !includes latex documentStartMarker then throwJs invalidLatexError
  else pure latex

/-- The `for` loop of lines 50-78, entered with the loop variable equal to
`attempt`; `none` is the `undefined` returned when the loop ends. The first
argument bounds the iterations that remain: with none left the hypothesis says
`attempt > maxAttempts`, so the loop condition is false. -/
def retryLoop (w : World) (title description : JsString) (maxAttempts : Int) :
    (remaining : Nat) → (attempt : Int) → (maxAttempts + 1 - attempt).toNat ≤ remaining →
    Js (Option JsString)
  | 0, _, _ => pure none
  | remaining + 1, attempt, h =>
    if attempt ≤ maxAttempts then
      tryCatch (attemptOnce w title description)
        (fun err =>
          if attempt = maxAttempts then throwJs err
          else retryLoop w title description maxAttempts remaining (attempt + 1) (by omega))
        (fun latex => pure (some latex))
    else pure none

/-- `generateLatexWithRetry(title, description, maxAttempts)` for an integer
`maxAttempts`. -/
def generateLatexWithRetry (w : World) (title description : JsString) (maxAttempts : Int) :
    Js (Option JsString) :=
  retryLoop w title description maxAttempts maxAttempts.toNat 1 (by omega)

/-! ## runPdflatex (bot.js, lines 81-102) -/

/-- `path.basename(p)` for POSIX paths: the last segment, trailing separators
ignored. -/
def basename (p : JsString) : JsString :=
  ((p.reverse.dropWhile (fun c => c == 47)).takeWhile (fun c => c != 47)).reverse

/-- Template conversion of an exit code: `null` or the decimal number. -/
def exitCodeString : Option Int → JsString
  | none => js "null"
  | some c => js (toString c)

/-- Lines 82-97, `runOnce()`: spawn the compiler and wait for `close` or `error`. -/
def runOnce (w : World) (texFilePath cwd : JsString) : Js (JsString × JsString) := fun s =>
  let run := w.pdflatex (spawnCalls s)
  let s1 : St :=
    { trace := s.trace ++ [Effect.spawn (js "pdflatex")
        [js "-interaction=batchmode", basename texFilePath] cwd],
      files := run.filesAfter s.files }
  match run.ending with
  | ProcessEnd.close code =>
    if code = some 0 then (Outcome.ok (run.stdout, run.stderr), s1)
    else
      (Outcome.threw ⟨js "pdflatex exited " ++ exitCodeString code ++ js "\n" ++ run.stderr
        ++ js "\n" ++ run.stdout⟩, s1)
  | ProcessEnd.error err => (Outcome.threw err, s1)

/-- Lines 99-101: two passes in sequence. -/
def runPdflatex (w : World) (texFilePath cwd : JsString) : Js Unit := do
  let _ ← runOnce w texFilePath cwd
  let _ ← runOnce w texFilePath cwd
  pure ()

/-! ## The `/report` handler (bot.js, lines 104-176) -/

/-- `s.endsWith(suffix)`. -/
def endsWith (s suffix : JsString) : Bool := startsWith suffix.reverse s.reverse

/-- `p.replace(/\.tex$/, ext)`. -/
def replaceTexExtension (p ext : JsString) : JsString :=
  if endsWith p (js ".tex") then p.take (p.length - 4) ++ ext else p

/-- `path.join(dir, name)` for a normalised directory and a plain file name. -/
def pathJoin (dir name : JsString) : JsString := dir ++ js "/" ++ name

/-- The `TypeError` of `fs.writeFileSync` when the data is `undefined`. -/
def undefinedDataError : JsError :=
  ⟨js "The \"data\" argument must be of type string or an instance of Buffer, TypedArray, or DataView. Received undefined"⟩

/-- The `TypeError` of line 168: `fs` has no member `existsExists`. -/
def existsExistsError : JsError := ⟨js "fs.existsExists is not a function"⟩

/-- Line 168, `fs.existsExists(log)`: a call of `undefined`. -/
def existsExists (_path : JsString) : Js Bool := throwJs existsExistsError

/-- Lines 162-171, the cleanup `try`/`catch`: the `catch` block only logs. -/
def cleanup (w : World) (texPath generatedPdfPath : JsString) : Js Unit :=
  tryCatch
    (do
      unlinkSync w texPath
      unlinkSync w generatedPdfPath
      let aux := replaceTexExtension texPath (js ".aux")
      let log := replaceTexExtension texPath (js ".log")
      let hasAux ← existsSync aux
      if hasAux then unlinkSync w aux
      let hasLog ← existsExists log
      if hasLog then unlinkSync w log)
    (fun _ => pure ())
    (fun _ => pure ())

/-- Lines 149-171: delivering and cleanup. -/
def deliver (w : World) (texPath texFilename pdfFilename : JsString) : Js Unit := do
  let generatedPdfPath := replaceTexExtension texPath (js ".pdf")
  let found ← existsSync generatedPdfPath
  if !found then do
    reply w (js "PDF not found after compilation. Sending .tex for inspection.")
    replyWithDocument w texPath texFilename
  else do
    reply w (js "Here's your report:")
    replyWithDocument w generatedPdfPath pdfFilename
    replyWithDocument w texPath texFilename
    cleanup w texPath generatedPdfPath

/-- Lines 132-171: writing, compiling, delivering and cleanup. -/
def writeAndCompile (w : World) (latexContent : Option JsString) : Js Unit := do
  let id := w.uuid
  let texFilename := js "report-" ++ id ++ js ".tex"
  let pdfFilename := js "report-" ++ id ++ js ".pdf"
  let workdir := w.tmpDir
  let texPath := pathJoin workdir texFilename
  match latexContent with
  | some content => writeFileSyncAtomic w texPath content
  | none => throwJs undefinedDataError
  tryCatch (runPdflatex w texPath workdir)
    (fun err => do
      reply w (js "Failed to compile LaTeX after generation.\nSending .tex and the error:")
      replyWithDocument w texPath texFilename
      reply w (js "Error: " ++ sliceTo 1000 err.message))
    (fun _ => deliver w texPath texFilename pdfFilename)

/-- Lines 106-171, the body of the outer `try`. -/
def reportBody (w : World) (text : JsString) : Js Unit :=
  match parseReport text with
  | none => reply w (js "Usage: /report <Title>\\n<Description>.")
  | some (title, description) => do
    reply w (js "Got it — generating LaTeX for \"" ++ title
      ++ js "\"... This may take a few seconds.")
    tryCatch (generateLatexWithRetry w title description 3)
      (fun err =>
        reply w (js "OpenAI failed to produce valid LaTeX after 3 attempts.\n" ++ err.message))
      (fun latexContent => writeAndCompile w latexContent)

/-- Lines 104-176: the handler registered for the `report` command, on a
message whose text is `text`. -/
def reportHandler (w : World) (text : JsString) : Js Unit :=
  tryCatch (reportBody w text)
    (fun err => reply w (js "Internal error: " ++ sliceTo 1000 err.message))
    (fun _ => pure ())

/-! ## Vocabulary of the statements -/

/-- Does a completion carry markup that line 68 accepts. -/
def Completion.valid (c : Completion) : Bool := includes c.text documentStartMarker

/-- The error with which an attempt that got this completion fails: the
rejection of the service, or the error of line 69. -/
def Completion.failure : Completion → JsError
  | Completion.rejected e => e
  | _ => invalidLatexError

/-- The request sent to the generation service for a prompt. -/
def completionRequest (prompt : JsString) : Effect :=
  Effect.chatCompletion (js "gpt-4o-mini")
    (js "You are a helpful assistant that outputs valid LaTeX documents.") prompt

/-- The state after `k` further calls to the generation service with `prompt`. -/
def afterCalls (s : St) (prompt : JsString) (k : Nat) : St :=
  { s with trace := s.trace ++ List.replicate k (completionRequest prompt) }

/-- What the generation service answers to the `k`-th call (from 1) that
`generateLatexWithRetry(title, description, _)` makes when started in state `s`. -/
def attemptCompletion (w : World) (title description : JsString) (s : St) (k : Nat) :
    Completion :=
  w.completions (completionCalls s + (k - 1)) (createPromptReturnOnlyLatex title description)

/-! ## Concrete collaborators -/

/-- A small valid document. -/
def sampleLatex : JsString :=
  js "\\documentclass\x7barticle\x7d\n\\begin\x7bdocument\x7d\nEverything is on track.\n\\end\x7bdocument\x7d"

/-- Add a file to the set of existing files. -/
def addFile (p : JsString) (fs : List JsString) : List JsString :=
  if fs.contains p then fs else fs ++ [p]

/-- A compiler pass that exits 0 and leaves the .pdf, .aux and .log files of `base`. -/
def pdflatexPass (base : JsString) : ProcessRun :=
  { stdout := js "This is pdfTeX"
    stderr := []
    ending := ProcessEnd.close (some 0)
    filesAfter := fun fs =>
      addFile (base ++ js ".log") (addFile (base ++ js ".aux") (addFile (base ++ js ".pdf") fs)) }

/-- A compiler pass that exits 1 with a diagnostic, leaving a .log file. -/
def pdflatexFailure (base : JsString) : ProcessRun :=
  { stdout := js "! Undefined control sequence."
    stderr := []
    ending := ProcessEnd.close (some 1)
    filesAfter := fun fs => addFile (base ++ js ".log") fs }

/-- Every collaborator works: the service answers `sampleLatex`, the compiler
exits 0 on both passes. -/
def nominalWorld : World :=
  { chat := fun _ => none
    completions := fun _ _ => Completion.content sampleLatex
    uuid := js "0b1c"
    tmpDir := js "/srv/bot/tmp"
    writeError := fun _ => none
    pdflatex := fun _ => pdflatexPass (js "/srv/bot/tmp/report-0b1c")
    unlinkError := fun _ => none }

/-- The service answers nothing, then text without the marker, then `sampleLatex`. -/
def thirdTimeWorld : World :=
  { nominalWorld with
    completions := fun n _ =>
      if n = 0 then Completion.noContent
      else if n = 1 then Completion.content (js "Sorry, I cannot help with that.")
      else Completion.content sampleLatex }

/-- The service is unreachable on the first call and answers `sampleLatex` after that. -/
def secondTimeWorld : World :=
  { nominalWorld with
    completions := fun n _ =>
      if n = 0 then Completion.rejected ⟨js "Connection error."⟩
      else Completion.content sampleLatex }

/-- The request used in the examples. -/
def weeklyStatus : JsString := js "/report Weekly Status\nEverything is on track."

/-- The first compiler pass exits 1; a second pass, if there were one, would exit 0. -/
def firstPassFailsWorld : World :=
  { nominalWorld with
    pdflatex := fun n =>
      if n = 0 then pdflatexFailure (js "/srv/bot/tmp/report-0b1c")
      else pdflatexPass (js "/srv/bot/tmp/report-0b1c") }

/-- The chat transport is down: every send throws. -/
def chatDownWorld : World :=
  { nominalWorld with chat := fun _ => some ⟨js "ETIMEDOUT"⟩ }

/-- Only the first send of the request throws. -/
def firstSendFailsWorld : World :=
  { nominalWorld with chat := fun n => if n = 0 then some ⟨js "ETIMEDOUT"⟩ else none }

/-- The first compiler pass exits 1 and the second send of the request throws. -/
def compileFailsSendFailsWorld : World :=
  { firstPassFailsWorld with chat := fun n => if n = 1 then some ⟨js "ETIMEDOUT"⟩ else none }

/-- The markup file cannot be removed. -/
def texUndeletableWorld : World :=
  { nominalWorld with
    unlinkError := fun p =>
      if p = js "/srv/bot/tmp/report-0b1c.tex" then
        some ⟨js "EACCES: permission denied, unlink '/srv/bot/tmp/report-0b1c.tex'"⟩
      else none }

/-- Line 133: the name of the markup file of a request. -/
def texFilenameOf (w : World) : JsString := js "report-" ++ w.uuid ++ js ".tex"

/-- Line 137: the path of the markup file of a request. -/
def texPathOf (w : World) : JsString := pathJoin w.tmpDir (texFilenameOf w)

/-- The run of a request up to the end of `runPdflatex` (lines 106-141): the
outcome of `runPdflatex` and the state at that point, or `none` when the
request ends before the compiler is reached (usage branch, failed send,
failed generation, failed write). -/
def runToCompile (w : World) (text : JsString) (s : St) : Option (Outcome Unit × St) :=
  match parseReport text with
  | none => none
  | some (title, description) =>
    match reply w (js "Got it — generating LaTeX for \"" ++ title
        ++ js "\"... This may take a few seconds.") s with
    | (Outcome.threw _, _) => none
    | (Outcome.ok _, s0) =>
      match generateLatexWithRetry w title description 3 s0 with
      | (Outcome.ok (some latex), s1) =>
        match writeFileSyncAtomic w (texPathOf w) latex s1 with
        | (Outcome.ok _, s2) => some (runPdflatex w (texPathOf w) w.tmpDir s2)
        | (Outcome.threw _, _) => none
      | _ => none

/-- The three sends of the handler's `catch` block for a compile failure
(lines 143-145). -/
def compileFailureReplies (w : World) (message : JsString) : List Effect :=
  [Effect.reply (js "Failed to compile LaTeX after generation.\nSending .tex and the error:"),
   Effect.replyWithDocument (texPathOf w) (texFilenameOf w),
   Effect.reply (js "Error: " ++ sliceTo 1000 message)]

/-- The usage reply of line 118. -/
def usageReply : Effect := Effect.reply (js "Usage: /report <Title>\\n<Description>.")

/-- The reply of the outer `catch` block (line 174) for an error. -/
def internalErrorReply (e : JsError) : Effect :=
  Effect.reply (js "Internal error: " ++ sliceTo 1000 e.message)

/-- The scratch directory of `nominalWorld` after a successful compilation. -/
def compiledFiles : List JsString :=
  [js "/srv/bot/tmp/report-0b1c.tex", js "/srv/bot/tmp/report-0b1c.pdf",
   js "/srv/bot/tmp/report-0b1c.aux", js "/srv/bot/tmp/report-0b1c.log"]

/-- The error of `runPdflatex` when the first pass is `pdflatexFailure`. -/
def firstPassError : JsError := ⟨js "pdflatex exited 1\n\n! Undefined control sequence."⟩

/-- The state of the request `weeklyStatus` when the first pass has failed. -/
def firstPassFailedState : St :=
  { trace :=
      [Effect.reply
        (js "Got it — generating LaTeX for \"Weekly Status\"... This may take a few seconds."),
       completionRequest
        (createPromptReturnOnlyLatex (js "Weekly Status") (js "Everything is on track.")),
       Effect.writeFile (js "/srv/bot/tmp/report-0b1c.tex") sampleLatex,
       Effect.spawn (js "pdflatex") [js "-interaction=batchmode", js "report-0b1c.tex"]
        (js "/srv/bot/tmp")],
    files := [js "/srv/bot/tmp/report-0b1c.tex", js "/srv/bot/tmp/report-0b1c.log"] }

/-! ## Lemmas on strings -/

theorem js_newline : js "\n" = [LF] := by decide

theorem includes_newline (s : JsString) : includes s (js "\n") = true ↔ LF ∈ s := by
  rw [js_newline]
  induction s with
  | nil => simp [includes, startsWith]
  | cons c cs ih =>
    simp only [includes, startsWith, Bool.or_eq_true, Bool.and_eq_true, ih, List.mem_cons]
    constructor
    · rintro (⟨h, _⟩ | h)
      · exact Or.inl (by simpa using h)
      · exact Or.inr h
    · rintro (h | h)
      · exact Or.inl ⟨by simp [h], by cases cs <;> simp [startsWith]⟩
      · exact Or.inr h

theorem splitNewline_ne_nil (s : JsString) : splitNewline s ≠ [] := by
  cases s with
  | nil => simp [splitNewline]
  | cons c cs =>
    unfold splitNewline
    split
    · simp
    · split <;> simp

theorem joinNewline_cons_cons (l m : JsString) (ls : List JsString) :
    joinNewline (l :: m :: ls) = l ++ LF :: joinNewline (m :: ls) := rfl

theorem joinNewline_push (c : Nat) (l : JsString) (ls : List JsString) :
    joinNewline ((c :: l) :: ls) = c :: joinNewline (l :: ls) := by
  cases ls <;> rfl

theorem joinNewline_splitNewline (s : JsString) : joinNewline (splitNewline s) = s := by
  induction s with
  | nil => rfl
  | cons c cs ih =>
    unfold splitNewline
    split
    · next h =>
      cases hs : splitNewline cs with
      | nil => exact absurd hs (splitNewline_ne_nil cs)
      | cons l ls =>
        rw [joinNewline_cons_cons, ← hs, ih, h]
        rfl
    · cases hs : splitNewline cs with
      | nil => exact absurd hs (splitNewline_ne_nil cs)
      | cons l ls =>
        rw [hs] at ih
        simp only [joinNewline_push, ih]

theorem splitNewline_eq (s : JsString) :
    ∃ ls, splitNewline s = beforeFirstNewline s :: ls ∧ joinNewline ls = afterFirstNewline s := by
  induction s with
  | nil => exact ⟨[], rfl, rfl⟩
  | cons c cs ih =>
    by_cases h : c = LF
    · refine ⟨splitNewline cs, ?_, ?_⟩
      · simp [splitNewline, beforeFirstNewline, h]
      · simp [afterFirstNewline, h, joinNewline_splitNewline]
    · obtain ⟨ls, h1, h2⟩ := ih
      refine ⟨ls, ?_, ?_⟩
      · simp [splitNewline, beforeFirstNewline, h, h1]
      · simp [afterFirstNewline, h, h2]

theorem splitNewline_headD (s : JsString) :
    (splitNewline s).headD [] = beforeFirstNewline s := by
  obtain ⟨ls, h1, _⟩ := splitNewline_eq s
  rw [h1]; rfl

theorem joinNewline_drop_splitNewline (s : JsString) :
    joinNewline ((splitNewline s).drop 1) = afterFirstNewline s := by
  obtain ⟨ls, h1, h2⟩ := splitNewline_eq s
  rw [h1]; simpa using h2

theorem before_append_after (s : JsString) (h : LF ∈ s) :
    s = beforeFirstNewline s ++ LF :: afterFirstNewline s := by
  induction s with
  | nil => simp at h
  | cons c cs ih =>
    by_cases hc : c = LF
    · simp [beforeFirstNewline, afterFirstNewline, hc]
    · have hmem : LF ∈ cs := by
        rcases List.mem_cons.mp h with h1 | h1
        · exact absurd h1.symm hc
        · exact h1
      have := ih hmem
      simp only [beforeFirstNewline, afterFirstNewline] at this ⊢
      simp [hc]
      simpa using this

theorem mem_dropWhile_of_not {p : Nat → Bool} {c : Nat} (s : List Nat) (hc : c ∈ s)
    (hp : p c = false) : c ∈ s.dropWhile p := by
  induction s with
  | nil => simp at hc
  | cons a as ih =>
    by_cases ha : p a = true
    · rw [List.dropWhile_cons_of_pos ha]
      rcases List.mem_cons.mp hc with h1 | h1
      · rw [h1, ha] at hp; exact absurd hp (by simp)
      · exact ih h1
    · rw [List.dropWhile_cons_of_neg ha]; exact hc

theorem trim_ne_nil {s : JsString} {c : Nat} (hc : c ∈ s) (hw : isWhiteSpace c = false) :
    trim s ≠ [] := by
  have h1 : c ∈ trimStart s := mem_dropWhile_of_not s hc hw
  have h2 : c ∈ (trimStart s).reverse.dropWhile isWhiteSpace :=
    mem_dropWhile_of_not _ (List.mem_reverse.mpr h1) hw
  intro h
  unfold trim trimEnd at h
  rw [List.reverse_eq_nil_iff] at h
  rw [h] at h2
  simp at h2

theorem trim_head (s : JsString) (c : Nat) (h : (trim s).head? = some c) :
    isWhiteSpace c = false := by
  unfold trim trimEnd at h
  have hpre : (trimStart s).reverse.dropWhile isWhiteSpace <:+ (trimStart s).reverse :=
    List.dropWhile_suffix _
  obtain ⟨t, ht⟩ := hpre
  have h3 : trimStart s = ((trimStart s).reverse.dropWhile isWhiteSpace).reverse ++ t.reverse := by
    have := congrArg List.reverse ht
    simpa using this.symm
  obtain ⟨ys, hys⟩ := List.head?_eq_some_iff.mp h
  rw [hys] at h3
  have h4 : (trimStart s).head? = some c := by rw [h3]; rfl
  have h5 := List.head?_dropWhile_not isWhiteSpace s
  unfold trimStart at h4
  rw [h4] at h5
  simpa using h5

theorem trim_getLast (s : JsString) (c : Nat) (h : (trim s).getLast? = some c) :
    isWhiteSpace c = false := by
  unfold trim trimEnd at h
  rw [List.getLast?_reverse] at h
  have h5 := List.head?_dropWhile_not isWhiteSpace (trimStart s).reverse
  rw [h] at h5
  simpa using h5

theorem isWhiteSpace_LF : isWhiteSpace LF = true := by decide

theorem parsePayload_eq_reference (payload : JsString) (h : payload ≠ []) :
    parsePayload payload = some (referenceParse payload) := by
  unfold parsePayload referenceParse
  by_cases hn : LF ∈ payload
  · have hi : includes payload (js "\n") = true := (includes_newline payload).mpr hn
    simp only [hi, hn, if_true, splitNewline_headD, joinNewline_drop_splitNewline, orElse]
  · have hi : ¬ includes payload (js "\n") = true := fun hh => hn ((includes_newline payload).mp hh)
    have hl : payload.length > 0 := List.length_pos.mpr h
    simp [hi, hn, hl]

theorem trimmed_lines_ne_nil (s : JsString) (h : LF ∈ trim s) :
    trim (beforeFirstNewline (trim s)) ≠ [] ∧ trim (afterFirstNewline (trim s)) ≠ [] := by
  have hsplit := before_append_after (trim s) h
  constructor
  · cases hp : trim s with
    | nil => rw [hp] at h; simp at h
    | cons c cs =>
      have hw : isWhiteSpace c = false := trim_head s c (by rw [hp]; rfl)
      have hc : c ≠ LF := by
        intro hh
        rw [hh, isWhiteSpace_LF] at hw
        exact absurd hw (by simp)
      have hb : c ∈ beforeFirstNewline (c :: cs) := by
        simp [beforeFirstNewline, hc]
      exact trim_ne_nil hb hw
  · cases ha : (afterFirstNewline (trim s)).getLast? with
    | none =>
      have hnil : afterFirstNewline (trim s) = [] := List.getLast?_eq_none_iff.mp ha
      rw [hnil] at hsplit
      have hl : (trim s).getLast? = some LF := by rw [hsplit]; simp
      have := trim_getLast s LF hl
      rw [isWhiteSpace_LF] at this
      exact absurd this (by simp)
    | some c =>
      have hl : (trim s).getLast? = some c := by
        rw [hsplit, List.getLast?_append, List.getLast?_cons, ha]
        rfl
      exact trim_ne_nil (List.mem_of_getLast?_eq_some ha) (trim_getLast s c hl)

/-! ## Parsing -/

/-- C1: parsing in the `/report` handler equals the reference definition. For
every message text whose payload is non-empty (and for every non-empty payload
string), the handler's title and description are those of `referenceParse`: a
payload without a newline is the title, with the fixed placeholder as the
description; otherwise the title is the trimmed text before the first newline,
or "Report" if that is empty, and the description is the trimmed text after the
first newline, or "No description provided." if that is empty. The payload
"Weekly Status\nEverything is on track." gives the title "Weekly Status" and the
description "Everything is on track.". -/
theorem report_parsing_refines_reference :
    (∀ text : JsString, payloadOf text ≠ [] →
      parseReport text = some (referenceParse (payloadOf text))) ∧
    (∀ payload : JsString, payload ≠ [] →
      parsePayload payload = some (referenceParse payload)) ∧
    parsePayload (js "Weekly Status\nEverything is on track.") =
      some (js "Weekly Status", js "Everything is on track.") :=
  ⟨fun text h => parsePayload_eq_reference (payloadOf text) h,
    parsePayload_eq_reference, by decide⟩

/-- C1 at the message "/report Weekly Status\nEverything is on track.". -/
theorem report_parsing_refines_reference_witness :
    payloadOf (js "/report Weekly Status\nEverything is on track.") ≠ [] ∧
    parseReport (js "/report Weekly Status\nEverything is on track.") =
      some (referenceParse (payloadOf (js "/report Weekly Status\nEverything is on track."))) ∧
    parseReport (js "/report Weekly Status\nEverything is on track.") =
      some (js "Weekly Status", js "Everything is on track.") :=
  ⟨by decide, report_parsing_refines_reference.1 _ (by decide), by decide⟩

/-- C10: because the payload is trimmed before it is split, the fallbacks of
the multi-line branch are never selected. For every message text whose payload
contains a newline, the trimmed first line and the trimmed remainder after the
first newline are both non-empty, so the handler's title and description are
exactly these two strings. Consequently "/report Title" followed only by blank
lines is parsed by the single-line branch, and "/report", newline, "Body" yields
the title "Body". -/
theorem multiline_fallbacks_never_selected :
    (∀ text : JsString, LF ∈ payloadOf text →
      trim ((splitNewline (payloadOf text)).headD []) ≠ [] ∧
      trim (joinNewline ((splitNewline (payloadOf text)).drop 1)) ≠ [] ∧
      parseReport text = some (trim ((splitNewline (payloadOf text)).headD []),
        trim (joinNewline ((splitNewline (payloadOf text)).drop 1)))) ∧
    parseReport (js "/report Title\n\n\n") = some (js "Title", singleLineDescription) ∧
    parseReport (js "/report\nBody") = some (js "Body", singleLineDescription) := by
  refine ⟨?_, by decide, by decide⟩
  intro text h
  have hne := trimmed_lines_ne_nil (removeReportCommand text) h
  have h1 : trim ((splitNewline (payloadOf text)).headD []) ≠ [] := by
    rw [splitNewline_headD]; exact hne.1
  have h2 : trim (joinNewline ((splitNewline (payloadOf text)).drop 1)) ≠ [] := by
    rw [joinNewline_drop_splitNewline]; exact hne.2
  refine ⟨h1, h2, ?_⟩
  have hi : includes (payloadOf text) (js "\n") = true := (includes_newline _).mpr h
  simp only [parseReport, parsePayload, hi, if_true, orElse, h1, h2, if_false]

/-- C10 at the message "/report Plan\n\nBody text". -/
theorem multiline_fallbacks_never_selected_witness :
    LF ∈ payloadOf (js "/report Plan\n\nBody text") ∧
    parseReport (js "/report Plan\n\nBody text") = some (js "Plan", js "Body text") := by
  have h := multiline_fallbacks_never_selected.1 (js "/report Plan\n\nBody text") (by decide)
  refine ⟨by decide, ?_⟩
  rw [h.2.2]
  decide

/-! ## The execution monad -/

theorem bind_run {α β : Type} (m : Js α) (f : α → Js β) (s : St) :
    (m >>= f) s =
      match m s with
      | (Outcome.ok a, s1) => f a s1
      | (Outcome.threw e, s1) => (Outcome.threw e, s1) := rfl

theorem pure_run {α : Type} (a : α) (s : St) : (pure a : Js α) s = (Outcome.ok a, s) := rfl

theorem bind_ok {α β : Type} {m : Js α} {f : α → Js β} {s s1 : St} {a : α}
    (h : m s = (Outcome.ok a, s1)) : (m >>= f) s = f a s1 := by
  rw [bind_run, h]

theorem bind_threw {α β : Type} {m : Js α} {f : α → Js β} {s s1 : St} {e : JsError}
    (h : m s = (Outcome.threw e, s1)) : (m >>= f) s = (Outcome.threw e, s1) := by
  rw [bind_run, h]

theorem tryCatch_ok {α β : Type} {m : Js α} {g : JsError → Js β} {f : α → Js β} {s s1 : St}
    {a : α} (h : m s = (Outcome.ok a, s1)) : tryCatch m g f s = f a s1 := by
  simp only [tryCatch, h]

theorem tryCatch_threw {α β : Type} {m : Js α} {g : JsError → Js β} {f : α → Js β}
    {s s1 : St} {e : JsError} (h : m s = (Outcome.threw e, s1)) :
    tryCatch m g f s = g e s1 := by
  simp only [tryCatch, h]

/-! ## generateLatexWithRetry -/

theorem completionCalls_afterCalls (s : St) (prompt : JsString) (k : Nat) :
    completionCalls (afterCalls s prompt k) = completionCalls s + k := by
  simp [completionCalls, afterCalls, List.countP_append, List.countP_replicate,
    completionRequest, Effect.isCompletion]

theorem afterCalls_zero (s : St) (prompt : JsString) : afterCalls s prompt 0 = s := by
  simp [afterCalls]

theorem afterCalls_succ (s : St) (prompt : JsString) (k : Nat) :
    afterCalls (afterCalls s prompt 1) prompt k = afterCalls s prompt (k + 1) := by
  simp [afterCalls, List.replicate_succ]

theorem rejected_not_valid (e : JsError) : (Completion.rejected e).valid = false := by
  simp only [Completion.valid, Completion.text]
  decide

theorem attemptOnce_run (w : World) (title description : JsString) (s : St) :
    attemptOnce w title description s =
      (if (attemptCompletion w title description s 1).valid = true
        then Outcome.ok (attemptCompletion w title description s 1).text
        else Outcome.threw (attemptCompletion w title description s 1).failure,
       afterCalls s (createPromptReturnOnlyLatex title description) 1) := by
  simp only [attemptOnce, attemptCompletion, Nat.sub_self, Nat.add_zero, bind_run,
    chatCompletionsCreate]
  cases hc : w.completions (completionCalls s) (createPromptReturnOnlyLatex title description) with
  | content t =>
    by_cases hv : includes t documentStartMarker = true
    · simp [Completion.valid, Completion.text, hv, afterCalls, completionRequest, pure_run]
    · simp [Completion.valid, Completion.text, hv, afterCalls, completionRequest, throwJs,
        Completion.failure]
  | noContent =>
    have hv : includes [] documentStartMarker = false := by decide
    simp [Completion.valid, Completion.text, hv, afterCalls, completionRequest, throwJs,
      Completion.failure]
  | rejected e =>
    simp [rejected_not_valid, afterCalls, completionRequest, Completion.failure]

theorem attemptCompletion_afterCalls (w : World) (title description : JsString) (s : St)
    (k : Nat) (hk : 1 ≤ k) :
    attemptCompletion w title description
        (afterCalls s (createPromptReturnOnlyLatex title description) 1) k =
      attemptCompletion w title description s (k + 1) := by
  simp only [attemptCompletion, completionCalls_afterCalls]
  congr 1
  omega

theorem retryLoop_step (w : World) (title description : JsString) (maxAttempts : Int)
    (remaining : Nat) (attempt : Int) (h : (maxAttempts + 1 - attempt).toNat ≤ remaining + 1)
    (hle : attempt ≤ maxAttempts) (s : St) :
    retryLoop w title description maxAttempts (remaining + 1) attempt h s =
      if (attemptCompletion w title description s 1).valid = true then
        (Outcome.ok (some (attemptCompletion w title description s 1).text),
          afterCalls s (createPromptReturnOnlyLatex title description) 1)
      else if attempt = maxAttempts then
        (Outcome.threw (attemptCompletion w title description s 1).failure,
          afterCalls s (createPromptReturnOnlyLatex title description) 1)
      else
        retryLoop w title description maxAttempts remaining (attempt + 1) (by omega)
          (afterCalls s (createPromptReturnOnlyLatex title description) 1) := by
  rw [retryLoop]
  simp only [hle, if_true]
  by_cases hv : (attemptCompletion w title description s 1).valid = true
  · have h1 := attemptOnce_run w title description s
    simp only [hv, if_true] at h1
    rw [tryCatch_ok h1]
    simp [hv, pure_run]
  · have h1 := attemptOnce_run w title description s
    simp only [hv] at h1
    rw [tryCatch_threw h1]
    by_cases he : attempt = maxAttempts
    · simp [hv, he, throwJs]
    · simp [hv, he]

theorem retryLoop_done (w : World) (title description : JsString) (maxAttempts : Int)
    (remaining : Nat) (attempt : Int) (h : (maxAttempts + 1 - attempt).toNat ≤ remaining)
    (hgt : maxAttempts < attempt) (s : St) :
    retryLoop w title description maxAttempts remaining attempt h s = (Outcome.ok none, s) := by
  cases remaining with
  | zero => rw [retryLoop]; rfl
  | succ n =>
    rw [retryLoop]
    have : ¬ attempt ≤ maxAttempts := by omega
    simp only [this, if_false]
    rfl

theorem retryLoop_first_valid (w : World) (title description : JsString) (maxAttempts : Int) :
    ∀ (remaining : Nat) (attempt : Int) (h : (maxAttempts + 1 - attempt).toNat ≤ remaining)
      (s : St) (k : Nat), 1 ≤ k → k ≤ (maxAttempts + 1 - attempt).toNat →
      (attemptCompletion w title description s k).valid = true →
      (∀ j, 1 ≤ j → j < k → (attemptCompletion w title description s j).valid = false) →
      retryLoop w title description maxAttempts remaining attempt h s =
        (Outcome.ok (some (attemptCompletion w title description s k).text),
          afterCalls s (createPromptReturnOnlyLatex title description) k) := by
  intro remaining
  induction remaining with
  | zero => intro attempt h s k h1 h2; omega
  | succ n ih =>
    intro attempt h s k h1 h2 hv hbefore
    have hle : attempt ≤ maxAttempts := by omega
    rw [retryLoop_step w title description maxAttempts n attempt h hle s]
    by_cases hk : k = 1
    · subst hk
      simp [hv]
    · have hfirst := hbefore 1 (by omega) (by omega)
      have hne : attempt ≠ maxAttempts := by omega
      simp only [hfirst, hne, if_false, Bool.false_eq_true]
      have := ih (attempt + 1) (by omega)
        (afterCalls s (createPromptReturnOnlyLatex title description) 1) (k - 1) (by omega)
        (by omega)
        (by rw [attemptCompletion_afterCalls _ _ _ _ _ (by omega)]
            have : k - 1 + 1 = k := by omega
            rw [this]; exact hv)
        (by intro j hj1 hj2
            rw [attemptCompletion_afterCalls _ _ _ _ _ hj1]
            exact hbefore (j + 1) (by omega) (by omega))
      rw [this, attemptCompletion_afterCalls _ _ _ _ _ (by omega), afterCalls_succ]
      have hk1 : k - 1 + 1 = k := by omega
      rw [hk1]

theorem retryLoop_none_valid (w : World) (title description : JsString) (maxAttempts : Int) :
    ∀ (remaining : Nat) (attempt : Int) (h : (maxAttempts + 1 - attempt).toNat ≤ remaining)
      (s : St), attempt ≤ maxAttempts →
      (∀ j, 1 ≤ j → j ≤ (maxAttempts + 1 - attempt).toNat →
        (attemptCompletion w title description s j).valid = false) →
      retryLoop w title description maxAttempts remaining attempt h s =
        (Outcome.threw (attemptCompletion w title description s
            (maxAttempts + 1 - attempt).toNat).failure,
          afterCalls s (createPromptReturnOnlyLatex title description)
            (maxAttempts + 1 - attempt).toNat) := by
  intro remaining
  induction remaining with
  | zero => intro attempt h s hle; omega
  | succ n ih =>
    intro attempt h s hle hall
    rw [retryLoop_step w title description maxAttempts n attempt h hle s]
    have hfirst := hall 1 (by omega) (by omega)
    simp only [hfirst, if_false, Bool.false_eq_true]
    by_cases he : attempt = maxAttempts
    · have hm : (maxAttempts + 1 - attempt).toNat = 1 := by omega
      simp [he, hm]
    · simp only [he, if_false]
      have hm : (maxAttempts + 1 - (attempt + 1)).toNat + 1 = (maxAttempts + 1 - attempt).toNat := by
        omega
      have := ih (attempt + 1) (by omega)
        (afterCalls s (createPromptReturnOnlyLatex title description) 1) (by omega)
        (by intro j hj1 hj2
            rw [attemptCompletion_afterCalls _ _ _ _ _ hj1]
            exact hall (j + 1) (by omega) (by omega))
      rw [this, afterCalls_succ, hm]
      have hpos : 1 ≤ (maxAttempts + 1 - (attempt + 1)).toNat := by omega
      rw [attemptCompletion_afterCalls _ _ _ _ _ hpos, hm]

theorem retryLoop_outcome (w : World) (title description : JsString) (maxAttempts : Int) :
    ∀ (remaining : Nat) (attempt : Int) (h : (maxAttempts + 1 - attempt).toNat ≤ remaining)
      (s : St), attempt ≤ maxAttempts →
      (∃ latex, (retryLoop w title description maxAttempts remaining attempt h s).1 =
          Outcome.ok (some latex) ∧ includes latex documentStartMarker = true) ∨
      (∃ e, (retryLoop w title description maxAttempts remaining attempt h s).1 =
          Outcome.threw e) := by
  intro remaining
  induction remaining with
  | zero => intro attempt h s hle; omega
  | succ n ih =>
    intro attempt h s hle
    rw [retryLoop_step w title description maxAttempts n attempt h hle s]
    by_cases hv : (attemptCompletion w title description s 1).valid = true
    · exact Or.inl ⟨(attemptCompletion w title description s 1).text, by simp [hv], hv⟩
    · by_cases he : attempt = maxAttempts
      · exact Or.inr ⟨(attemptCompletion w title description s 1).failure, by simp [hv, he]⟩
      · simp only [hv, he, if_false]
        exact ih (attempt + 1) (by omega) _ (by omega)

/-- C2: for every title, description, `maxAttempts >= 1`, every behaviour of
the generation service (a response text, an empty response or a thrown error
per call) and every starting state: if `k <= maxAttempts` is the first attempt
whose response text contains the marker `\documentclass`, the function returns
exactly that text after exactly `k` service calls; if none of the first
`maxAttempts` attempts produces such a text, it throws the error of the last
attempt after exactly `maxAttempts` service calls. -/
theorem generateLatexWithRetry_retries (w : World) (title description : JsString)
    (maxAttempts : Int) (hm : 1 ≤ maxAttempts) (s : St) :
    (∀ k : Nat, 1 ≤ k → (k : Int) ≤ maxAttempts →
      (attemptCompletion w title description s k).valid = true →
      (∀ j, 1 ≤ j → j < k → (attemptCompletion w title description s j).valid = false) →
      generateLatexWithRetry w title description maxAttempts s =
          (Outcome.ok (some (attemptCompletion w title description s k).text),
            afterCalls s (createPromptReturnOnlyLatex title description) k) ∧
        completionCalls (generateLatexWithRetry w title description maxAttempts s).2 =
          completionCalls s + k) ∧
    ((∀ j : Nat, 1 ≤ j → (j : Int) ≤ maxAttempts →
        (attemptCompletion w title description s j).valid = false) →
      generateLatexWithRetry w title description maxAttempts s =
          (Outcome.threw (attemptCompletion w title description s maxAttempts.toNat).failure,
            afterCalls s (createPromptReturnOnlyLatex title description) maxAttempts.toNat) ∧
        (completionCalls (generateLatexWithRetry w title description maxAttempts s).2 : Int) =
          completionCalls s + maxAttempts) := by
  have hn : (maxAttempts + 1 - 1).toNat = maxAttempts.toNat := by omega
  constructor
  · intro k h1 h2 hv hbefore
    have := retryLoop_first_valid w title description maxAttempts maxAttempts.toNat 1
      (by omega) s k h1 (by omega) hv hbefore
    unfold generateLatexWithRetry
    rw [this]
    exact ⟨rfl, completionCalls_afterCalls _ _ _⟩
  · intro hall
    have := retryLoop_none_valid w title description maxAttempts maxAttempts.toNat 1
      (by omega) s hm (by intro j h1 h2; exact hall j h1 (by omega))
    unfold generateLatexWithRetry
    rw [this, hn]
    refine ⟨rfl, ?_⟩
    simp only [completionCalls_afterCalls]
    push_cast
    omega

/-- C2 on a service that answers invalid, invalid, valid, with `maxAttempts = 3`:
the third text is returned after exactly 3 calls. -/
theorem generateLatexWithRetry_retries_witness :
    (generateLatexWithRetry thirdTimeWorld (js "Weekly Status") (js "Everything is on track.") 3
        (St.init [])).1 = Outcome.ok (some sampleLatex) ∧
    completionCalls (generateLatexWithRetry thirdTimeWorld (js "Weekly Status")
        (js "Everything is on track.") 3 (St.init [])).2 = 3 := by
  have h := (generateLatexWithRetry_retries thirdTimeWorld (js "Weekly Status")
    (js "Everything is on track.") 3 (by decide) (St.init [])).1 3 (by decide) (by decide)
    (by decide) (by intro j h1 h2; interval_cases j <;> decide)
  constructor
  · rw [h.1]; rfl
  · rw [h.2]; rfl

/-- C9, amended: for every title, description, `maxAttempts >= 1` and every
behaviour of the generation service, `generateLatexWithRetry` either returns a
string that contains `\documentclass` or throws; it never returns anything else. -/
theorem generateLatexWithRetry_valid_or_throws (w : World) (title description : JsString)
    (maxAttempts : Int) (hm : 1 ≤ maxAttempts) (s : St) :
    (∃ latex, (generateLatexWithRetry w title description maxAttempts s).1 =
        Outcome.ok (some latex) ∧ includes latex documentStartMarker = true) ∨
    (∃ e, (generateLatexWithRetry w title description maxAttempts s).1 = Outcome.threw e) :=
  retryLoop_outcome w title description maxAttempts maxAttempts.toNat 1 (by omega) s hm

/-- C9, amended, on a service that fails once and then answers a valid document. -/
theorem generateLatexWithRetry_valid_or_throws_witness :
    (1 : Int) ≤ 2 ∧
    ((∃ latex, (generateLatexWithRetry secondTimeWorld (js "Weekly Status") (js "On track.") 2
        (St.init [])).1 = Outcome.ok (some latex) ∧ includes latex documentStartMarker = true) ∨
    (∃ e, (generateLatexWithRetry secondTimeWorld (js "Weekly Status") (js "On track.") 2
        (St.init [])).1 = Outcome.threw e)) :=
  ⟨by decide, generateLatexWithRetry_valid_or_throws secondTimeWorld (js "Weekly Status")
    (js "On track.") 2 (by decide) (St.init [])⟩

/-- C9 fails for `maxAttempts = 0`: the loop body never runs and the function
completes normally with `undefined`, without any service call. -/
theorem generateLatexWithRetry_zero_attempts :
    generateLatexWithRetry nominalWorld (js "Weekly Status") (js "On track.") 0 (St.init []) =
      (Outcome.ok none, St.init []) ∧
    ¬ ((∃ latex, (generateLatexWithRetry nominalWorld (js "Weekly Status") (js "On track.") 0
          (St.init [])).1 = Outcome.ok (some latex) ∧
          includes latex documentStartMarker = true) ∨
      (∃ e, (generateLatexWithRetry nominalWorld (js "Weekly Status") (js "On track.") 0
          (St.init [])).1 = Outcome.threw e)) := by
  have h : generateLatexWithRetry nominalWorld (js "Weekly Status") (js "On track.") 0
      (St.init []) = (Outcome.ok none, St.init []) := rfl
  refine ⟨h, ?_⟩
  rw [h]
  rintro (⟨latex, h1, _⟩ | ⟨e, h1⟩)
  · cases h1
  · cases h1

/-! ## runPdflatex -/

theorem runOnce_run (w : World) (texFilePath cwd : JsString) (s : St) :
    ∃ s1 : St, spawnCalls s1 = spawnCalls s + 1 ∧
      s1.trace = s.trace ++ [Effect.spawn (js "pdflatex")
        [js "-interaction=batchmode", basename texFilePath] cwd] ∧
      s1.files = (w.pdflatex (spawnCalls s)).filesAfter s.files ∧
      (((w.pdflatex (spawnCalls s)).ending = ProcessEnd.close (some 0) ∧
          runOnce w texFilePath cwd s =
            (Outcome.ok ((w.pdflatex (spawnCalls s)).stdout, (w.pdflatex (spawnCalls s)).stderr),
              s1)) ∨
        ((w.pdflatex (spawnCalls s)).ending ≠ ProcessEnd.close (some 0) ∧
          ∃ e, runOnce w texFilePath cwd s = (Outcome.threw e, s1))) := by
  refine ⟨St.mk (s.trace ++ [Effect.spawn (js "pdflatex")
      [js "-interaction=batchmode", basename texFilePath] cwd])
    ((w.pdflatex (spawnCalls s)).filesAfter s.files), ?_, rfl, rfl, ?_⟩
  · simp [spawnCalls, List.countP_append, Effect.isSpawn]
  · unfold runOnce
    cases he : (w.pdflatex (spawnCalls s)).ending with
    | close code =>
      by_cases hc : code = some 0
      · left; simp [he, hc]
      · right
        refine ⟨by simpa using hc, ?_⟩
        simp [he, hc]
    | error err =>
      right
      exact ⟨by simp, err, by simp [he]⟩

/-- C5: for every markup path, working directory and every behaviour of the
compiler subprocess, `runPdflatex` spawns the compiler at most twice and never
retries: if the first pass does not exit 0 (non-zero code, or failure to
start), `runPdflatex` throws after that single spawn; the second pass is
spawned if and only if the first exited 0; and `runPdflatex` succeeds if and
only if both passes exited 0. -/
theorem runPdflatex_two_passes (w : World) (texFilePath cwd : JsString) (s : St) :
    spawnCalls (runPdflatex w texFilePath cwd s).2 ≤ spawnCalls s + 2 ∧
    ((w.pdflatex (spawnCalls s)).ending ≠ ProcessEnd.close (some 0) →
      (∃ e, (runPdflatex w texFilePath cwd s).1 = Outcome.threw e) ∧
      spawnCalls (runPdflatex w texFilePath cwd s).2 = spawnCalls s + 1) ∧
    (spawnCalls (runPdflatex w texFilePath cwd s).2 = spawnCalls s + 2 ↔
      (w.pdflatex (spawnCalls s)).ending = ProcessEnd.close (some 0)) ∧
    ((runPdflatex w texFilePath cwd s).1 = Outcome.ok () ↔
      (w.pdflatex (spawnCalls s)).ending = ProcessEnd.close (some 0) ∧
      (w.pdflatex (spawnCalls s + 1)).ending = ProcessEnd.close (some 0)) := by
  obtain ⟨s1, hs1, -, -, h1⟩ := runOnce_run w texFilePath cwd s
  obtain ⟨s2, hs2, -, -, h2⟩ := runOnce_run w texFilePath cwd s1
  rw [hs1] at h2
  rcases h1 with ⟨he1, hr1⟩ | ⟨he1, e1, hr1⟩
  · rcases h2 with ⟨he2, hr2⟩ | ⟨he2, e2, hr2⟩
    · have hr : runPdflatex w texFilePath cwd s = (Outcome.ok (), s2) := by
        unfold runPdflatex
        rw [bind_ok hr1, bind_ok hr2]; rfl
      rw [hr]
      simp [he1, he2, hs2, hs1]
    · have hr : runPdflatex w texFilePath cwd s = (Outcome.threw e2, s2) := by
        unfold runPdflatex
        rw [bind_ok hr1, bind_threw hr2]
      rw [hr]
      simp [he1, he2, hs2, hs1]
  · have hr : runPdflatex w texFilePath cwd s = (Outcome.threw e1, s1) := by
      unfold runPdflatex
      rw [bind_threw hr1]
    rw [hr]
    simp [he1, hs1]

/-- C5 on a compiler whose first pass exits 1: `runPdflatex` throws after one spawn. -/
theorem runPdflatex_two_passes_witness :
    (∃ e, (runPdflatex firstPassFailsWorld (js "/srv/bot/tmp/report-0b1c.tex")
        (js "/srv/bot/tmp") (St.init [])).1 = Outcome.threw e) ∧
    spawnCalls (runPdflatex firstPassFailsWorld (js "/srv/bot/tmp/report-0b1c.tex")
        (js "/srv/bot/tmp") (St.init [])).2 = spawnCalls (St.init []) + 1 :=
  (runPdflatex_two_passes firstPassFailsWorld (js "/srv/bot/tmp/report-0b1c.tex")
    (js "/srv/bot/tmp") (St.init [])).2.1 (by decide)

/-! ## The handler on concrete requests -/

/-- C3, the code at a successful request: every collaborator succeeds and the
compiler leaves report-0b1c.pdf, .aux and .log. After compilation the handler
sends the success text, the .pdf, the .tex, then deletes the .tex, the .pdf and
the .aux; line 168 throws before the .log is looked at, so report-0b1c.log is
still in the scratch directory when the handler is done. -/
theorem report_success_leaves_log :
    reportHandler nominalWorld weeklyStatus (St.init []) =
      (Outcome.ok (),
        { trace :=
            [Effect.reply
              (js "Got it — generating LaTeX for \"Weekly Status\"... This may take a few seconds."),
             completionRequest
              (createPromptReturnOnlyLatex (js "Weekly Status") (js "Everything is on track.")),
             Effect.writeFile (js "/srv/bot/tmp/report-0b1c.tex") sampleLatex,
             Effect.spawn (js "pdflatex") [js "-interaction=batchmode", js "report-0b1c.tex"]
              (js "/srv/bot/tmp"),
             Effect.spawn (js "pdflatex") [js "-interaction=batchmode", js "report-0b1c.tex"]
              (js "/srv/bot/tmp"),
             Effect.reply (js "Here's your report:"),
             Effect.replyWithDocument (js "/srv/bot/tmp/report-0b1c.pdf") (js "report-0b1c.pdf"),
             Effect.replyWithDocument (js "/srv/bot/tmp/report-0b1c.tex") (js "report-0b1c.tex"),
             Effect.unlink (js "/srv/bot/tmp/report-0b1c.tex"),
             Effect.unlink (js "/srv/bot/tmp/report-0b1c.pdf"),
             Effect.unlink (js "/srv/bot/tmp/report-0b1c.aux")],
          files := [js "/srv/bot/tmp/report-0b1c.log"] }) := by
  decide

/-! ## The handler -/

theorem chatCalls_reply (s : St) (text : JsString) :
    chatCalls { s with trace := s.trace ++ [Effect.reply text] } = chatCalls s + 1 := by
  simp [chatCalls, List.countP_append, Effect.isChat]

theorem chatCalls_document (s : St) (source filename : JsString) :
    chatCalls { s with trace := s.trace ++ [Effect.replyWithDocument source filename] } =
      chatCalls s + 1 := by
  simp [chatCalls, List.countP_append, Effect.isChat]

theorem reply_ok (w : World) (text : JsString) (s : St) (h : w.chat (chatCalls s) = none) :
    reply w text s = (Outcome.ok (), { s with trace := s.trace ++ [Effect.reply text] }) := by
  simp [reply, h]

theorem reply_threw (w : World) (text : JsString) (s : St) (e : JsError)
    (h : w.chat (chatCalls s) = some e) :
    reply w text s = (Outcome.threw e, { s with trace := s.trace ++ [Effect.reply text] }) := by
  simp [reply, h]

theorem replyWithDocument_ok (w : World) (source filename : JsString) (s : St)
    (h : w.chat (chatCalls s) = none) :
    replyWithDocument w source filename s =
      (Outcome.ok (), { s with trace := s.trace ++ [Effect.replyWithDocument source filename] }) := by
  simp [replyWithDocument, h]

theorem parseReport_empty (text : JsString) (h : payloadOf text = []) : parseReport text = none := by
  unfold parseReport
  rw [h]
  decide

theorem reportHandler_of_body_ok (w : World) (text : JsString) (s sb : St)
    (h : reportBody w text s = (Outcome.ok (), sb)) :
    reportHandler w text s = (Outcome.ok (), sb) := by
  unfold reportHandler
  rw [tryCatch_ok h]
  rfl

theorem reportHandler_of_body_threw (w : World) (text : JsString) (s sb : St) (e : JsError)
    (h : reportBody w text s = (Outcome.threw e, sb)) :
    reportHandler w text s = reply w (js "Internal error: " ++ sliceTo 1000 e.message) sb := by
  unfold reportHandler
  rw [tryCatch_threw h]

/-- C6, amended: for every message text whose payload is empty the handler
performs no generation-service call, writes no file, invokes no compiler
process, sends no document and deletes no file. When the usage reply is
delivered it is the handler's only effect; when the usage reply throws, the
outer `catch` attempts one further reply, the "Internal error" text. -/
theorem empty_payload_usage_only (w : World) (text : JsString) (s : St)
    (h : payloadOf text = []) :
    (w.chat (chatCalls s) = none →
      reportHandler w text s = (Outcome.ok (), { s with trace := s.trace ++ [usageReply] })) ∧
    (∀ e, w.chat (chatCalls s) = some e →
      (reportHandler w text s).2 =
        { s with trace := s.trace ++ [usageReply, internalErrorReply e] }) ∧
    (∃ added, (reportHandler w text s).2.trace = s.trace ++ added ∧
      ∀ eff ∈ added, ∃ t, eff = Effect.reply t) ∧
    (reportHandler w text s).2.files = s.files := by
  have hbody : reportBody w text s = reply w (js "Usage: /report <Title>\\n<Description>.") s := by
    unfold reportBody
    rw [parseReport_empty text h]
  have hok : w.chat (chatCalls s) = none →
      reportHandler w text s = (Outcome.ok (), { s with trace := s.trace ++ [usageReply] }) := by
    intro hc
    exact reportHandler_of_body_ok w text s _ (by rw [hbody, reply_ok w _ s hc]; rfl)
  have hthrew : ∀ e, w.chat (chatCalls s) = some e →
      (reportHandler w text s).2 =
        { s with trace := s.trace ++ [usageReply, internalErrorReply e] } := by
    intro e hc
    rw [reportHandler_of_body_threw w text s _ e (by rw [hbody, reply_threw w _ s e hc])]
    simp [reply, usageReply, internalErrorReply]
    split <;> rfl
  refine ⟨hok, hthrew, ?_, ?_⟩
  · cases hc : w.chat (chatCalls s) with
    | none =>
      rw [hok hc]
      exact ⟨[usageReply], rfl, by simp [usageReply]⟩
    | some e =>
      rw [hthrew e hc]
      exact ⟨[usageReply, internalErrorReply e], rfl, by simp [usageReply, internalErrorReply]⟩
  · cases hc : w.chat (chatCalls s) with
    | none => rw [hok hc]
    | some e => rw [hthrew e hc]

/-- C6, amended, at the message "/report" with a working chat transport: the
usage reply is the only effect. -/
theorem empty_payload_usage_only_witness :
    payloadOf (js "/report") = [] ∧
    reportHandler nominalWorld (js "/report") (St.init []) =
      (Outcome.ok (), { trace := [usageReply], files := [] }) :=
  ⟨by decide,
    (empty_payload_usage_only nominalWorld (js "/report") (St.init []) (by decide)).1 rfl⟩

/-- C6 fails when the usage reply throws: the payload of "/report" is empty,
and the handler attempts a second reply, the "Internal error" text. -/
theorem empty_payload_second_reply :
    payloadOf (js "/report") = [] ∧
    reportHandler firstSendFailsWorld (js "/report") (St.init []) =
      (Outcome.ok (),
        { trace := [usageReply, Effect.reply (js "Internal error: ETIMEDOUT")], files := [] }) ∧
    (reportHandler firstSendFailsWorld (js "/report") (St.init [])).2.trace ≠ [usageReply] := by
  decide

/-- C8, amended: for every message and every behaviour of the collaborators,
an exception with message `m` that leaves the body of the outer `try` is
caught and answered by the text reply "Internal error: " followed by the first
1000 characters of `m`; the handler then completes normally if that reply is
delivered and throws the reply's own exception if it is not. A body that ends
normally adds nothing, and with a chat transport that never throws the handler
never throws. -/
theorem reportHandler_outer_catch (w : World) (text : JsString) (s : St) :
    (∀ e sb, reportBody w text s = (Outcome.threw e, sb) →
      (reportHandler w text s).2 = { sb with trace := sb.trace ++ [internalErrorReply e] } ∧
      (w.chat (chatCalls sb) = none → (reportHandler w text s).1 = Outcome.ok ()) ∧
      (∀ e2, w.chat (chatCalls sb) = some e2 →
        (reportHandler w text s).1 = Outcome.threw e2)) ∧
    (∀ sb, reportBody w text s = (Outcome.ok (), sb) →
      reportHandler w text s = (Outcome.ok (), sb)) ∧
    ((∀ n, w.chat n = none) → (reportHandler w text s).1 = Outcome.ok ()) := by
  refine ⟨?_, ?_, ?_⟩
  · intro e sb hb
    rw [reportHandler_of_body_threw w text s sb e hb]
    refine ⟨?_, ?_, ?_⟩
    · simp only [reply, internalErrorReply]
      split <;> rfl
    · intro hc
      rw [reply_ok w _ sb hc]
    · intro e2 hc
      rw [reply_threw w _ sb e2 hc]
  · intro sb hb
    exact reportHandler_of_body_ok w text s sb hb
  · intro hall
    cases hb : reportBody w text s with
    | mk o sb =>
      cases o with
      | ok u => rw [reportHandler_of_body_ok w text s sb hb]
      | threw e =>
        rw [reportHandler_of_body_threw w text s sb e hb, reply_ok w _ sb (hall _)]

/-- C8, amended, on a request whose first send throws while the later ones are
delivered: the exception is answered by the "Internal error" reply and the
handler completes normally. -/
theorem reportHandler_outer_catch_witness :
    reportBody firstSendFailsWorld weeklyStatus (St.init []) =
      (Outcome.threw ⟨js "ETIMEDOUT"⟩,
        { trace := [Effect.reply
            (js "Got it — generating LaTeX for \"Weekly Status\"... This may take a few seconds.")],
          files := [] }) ∧
    reportHandler firstSendFailsWorld weeklyStatus (St.init []) =
      (Outcome.ok (),
        { trace := [Effect.reply
            (js "Got it — generating LaTeX for \"Weekly Status\"... This may take a few seconds."),
            Effect.reply (js "Internal error: ETIMEDOUT")],
          files := [] }) := by
  have hb : reportBody firstSendFailsWorld weeklyStatus (St.init []) =
      (Outcome.threw ⟨js "ETIMEDOUT"⟩,
        { trace := [Effect.reply
            (js "Got it — generating LaTeX for \"Weekly Status\"... This may take a few seconds.")],
          files := [] }) := by decide
  have h := (reportHandler_outer_catch firstSendFailsWorld weeklyStatus (St.init [])).1 _ _ hb
  refine ⟨hb, ?_⟩
  have h1 := h.1
  have h2 := h.2.1 (by decide)
  exact Prod.ext h2 (by rw [h1]; decide)

/-- C8 fails when the chat transport is down: the "Got it" reply throws, the
outer `catch` is entered, its own reply throws as well, and that exception
escapes the handler. -/
theorem reportHandler_throws_when_chat_down :
    reportHandler chatDownWorld weeklyStatus (St.init []) =
      (Outcome.threw ⟨js "ETIMEDOUT"⟩,
        { trace := [Effect.reply
            (js "Got it — generating LaTeX for \"Weekly Status\"... This may take a few seconds."),
            Effect.reply (js "Internal error: ETIMEDOUT")],
          files := [] }) ∧
    (reportHandler chatDownWorld weeklyStatus (St.init [])).1 ≠ Outcome.ok () := by
  decide

/-! ## Cleanup -/

theorem unlinkSync_trace (w : World) (path : JsString) (s : St) :
    (unlinkSync w path s).2.trace = s.trace ++ [Effect.unlink path] := by
  unfold unlinkSync
  cases w.unlinkError path with
  | some e => rfl
  | none =>
    simp only
    split <;> rfl

theorem chatCalls_unlink (w : World) (path : JsString) (s : St) :
    chatCalls (unlinkSync w path s).2 = chatCalls s := by
  simp [chatCalls, unlinkSync_trace, List.countP_append, Effect.isChat]

theorem cleanup_run (w : World) (texPath pdfPath : JsString) (s : St) :
    cleanup w texPath pdfPath s =
      match unlinkSync w texPath s with
      | (Outcome.threw _, s1) => (Outcome.ok (), s1)
      | (Outcome.ok _, s1) =>
        match unlinkSync w pdfPath s1 with
        | (Outcome.threw _, s2) => (Outcome.ok (), s2)
        | (Outcome.ok _, s2) =>
          if s2.files.contains (replaceTexExtension texPath (js ".aux")) then
            (Outcome.ok (), (unlinkSync w (replaceTexExtension texPath (js ".aux")) s2).2)
          else (Outcome.ok (), s2) := by
  unfold cleanup tryCatch
  simp only [bind_run]
  cases h1 : unlinkSync w texPath s with
  | mk o1 s1 =>
    cases o1 with
    | threw e => rfl
    | ok u =>
      simp only
      cases h2 : unlinkSync w pdfPath s1 with
      | mk o2 s2 =>
        cases o2 with
        | threw e => rfl
        | ok u2 =>
          simp only [existsSync]
          by_cases ha : s2.files.contains (replaceTexExtension texPath (js ".aux")) = true
          · simp only [ha, if_true]
            cases h3 : unlinkSync w (replaceTexExtension texPath (js ".aux")) s2 with
            | mk o3 s3 =>
              cases o3 with
              | threw e => rw [bind_run, h3]; rfl
              | ok u3 => rw [bind_run, h3]; rfl
          · simp only [ha]
            rfl

/-- C7, amended: in the cleanup stage a deletion error is caught and never
surfaced (nothing is sent and the stage ends normally), but it ends the
cleanup: the deletions are attempted in the order .tex, .pdf, .aux (the .aux
only when it exists), and once one of them fails no later one is attempted. -/
theorem cleanup_stops_at_first_failure (w : World) (texPath pdfPath : JsString) (s : St) :
    (cleanup w texPath pdfPath s).1 = Outcome.ok () ∧
    chatCalls (cleanup w texPath pdfPath s).2 = chatCalls s ∧
    ((unlinkSync w texPath s).1 ≠ Outcome.ok () →
      (cleanup w texPath pdfPath s).2.trace = s.trace ++ [Effect.unlink texPath]) ∧
    ((unlinkSync w texPath s).1 = Outcome.ok () →
      (unlinkSync w pdfPath (unlinkSync w texPath s).2).1 ≠ Outcome.ok () →
      (cleanup w texPath pdfPath s).2.trace =
        s.trace ++ [Effect.unlink texPath, Effect.unlink pdfPath]) ∧
    ((unlinkSync w texPath s).1 = Outcome.ok () →
      (unlinkSync w pdfPath (unlinkSync w texPath s).2).1 = Outcome.ok () →
      (cleanup w texPath pdfPath s).2.trace =
        s.trace ++ [Effect.unlink texPath, Effect.unlink pdfPath] ++
          (if (unlinkSync w pdfPath (unlinkSync w texPath s).2).2.files.contains
              (replaceTexExtension texPath (js ".aux"))
            then [Effect.unlink (replaceTexExtension texPath (js ".aux"))] else [])) := by
  rw [cleanup_run]
  have t1 := unlinkSync_trace w texPath s
  have c1 := chatCalls_unlink w texPath s
  cases h1 : unlinkSync w texPath s with
  | mk o1 s1 =>
    rw [h1] at t1 c1
    simp only at t1 c1
    cases o1 with
    | threw e => simp [t1, c1]
    | ok u =>
      have t2 := unlinkSync_trace w pdfPath s1
      have c2 := chatCalls_unlink w pdfPath s1
      cases h2 : unlinkSync w pdfPath s1 with
      | mk o2 s2 =>
        rw [h2] at t2 c2
        simp only at t2 c2
        cases o2 with
        | threw e => simp [h2, t2, t1, c2, c1]
        | ok u2 =>
          have t3 := unlinkSync_trace w (replaceTexExtension texPath (js ".aux")) s2
          have c3 := chatCalls_unlink w (replaceTexExtension texPath (js ".aux")) s2
          by_cases ha : replaceTexExtension texPath (js ".aux") ∈ s2.files
          · simp [h2, ha, t3, t2, t1, c3, c2, c1]
          · simp [h2, ha, t2, t1, c2, c1]

/-- C7, amended, on a scratch directory whose .tex file cannot be removed: the
only deletion attempted is that of the .tex file. -/
theorem cleanup_stops_at_first_failure_witness :
    (unlinkSync texUndeletableWorld (js "/srv/bot/tmp/report-0b1c.tex")
        { trace := [], files := compiledFiles }).1 ≠ Outcome.ok () ∧
    (cleanup texUndeletableWorld (js "/srv/bot/tmp/report-0b1c.tex")
        (js "/srv/bot/tmp/report-0b1c.pdf") { trace := [], files := compiledFiles }).2.trace =
      [Effect.unlink (js "/srv/bot/tmp/report-0b1c.tex")] :=
  ⟨by decide,
    (cleanup_stops_at_first_failure texUndeletableWorld (js "/srv/bot/tmp/report-0b1c.tex")
      (js "/srv/bot/tmp/report-0b1c.pdf") { trace := [], files := compiledFiles }).2.2.1
      (by decide)⟩

/-- C7 fails when the deletion of the .tex file fails: the request reaches
cleanup, the .pdf and the .aux exist, and neither deletion is attempted. -/
theorem cleanup_aborted_by_tex_failure :
    reportHandler texUndeletableWorld weeklyStatus (St.init []) =
      (Outcome.ok (),
        { trace :=
            [Effect.reply
              (js "Got it — generating LaTeX for \"Weekly Status\"... This may take a few seconds."),
             completionRequest
              (createPromptReturnOnlyLatex (js "Weekly Status") (js "Everything is on track.")),
             Effect.writeFile (js "/srv/bot/tmp/report-0b1c.tex") sampleLatex,
             Effect.spawn (js "pdflatex") [js "-interaction=batchmode", js "report-0b1c.tex"]
              (js "/srv/bot/tmp"),
             Effect.spawn (js "pdflatex") [js "-interaction=batchmode", js "report-0b1c.tex"]
              (js "/srv/bot/tmp"),
             Effect.reply (js "Here's your report:"),
             Effect.replyWithDocument (js "/srv/bot/tmp/report-0b1c.pdf") (js "report-0b1c.pdf"),
             Effect.replyWithDocument (js "/srv/bot/tmp/report-0b1c.tex") (js "report-0b1c.tex"),
             Effect.unlink (js "/srv/bot/tmp/report-0b1c.tex")],
          files := compiledFiles }) ∧
    Effect.unlink (js "/srv/bot/tmp/report-0b1c.pdf") ∉
      (reportHandler texUndeletableWorld weeklyStatus (St.init [])).2.trace ∧
    Effect.unlink (js "/srv/bot/tmp/report-0b1c.aux") ∉
      (reportHandler texUndeletableWorld weeklyStatus (St.init [])).2.trace := by
  decide

/-! ## Compile failure -/

theorem compileFailure_catch (w : World) (e : JsError) (s3 : St)
    (h1 : w.chat (chatCalls s3) = none) (h2 : w.chat (chatCalls s3 + 1) = none)
    (h3 : w.chat (chatCalls s3 + 2) = none) :
    (do
      reply w (js "Failed to compile LaTeX after generation.\nSending .tex and the error:")
      replyWithDocument w (texPathOf w) (texFilenameOf w)
      reply w (js "Error: " ++ sliceTo 1000 e.message) : Js Unit) s3 =
      (Outcome.ok (), { s3 with trace := s3.trace ++ compileFailureReplies w e.message }) := by
  rw [bind_ok (reply_ok w _ s3 h1)]
  rw [bind_ok (replyWithDocument_ok w _ _ _ (by rw [chatCalls_reply]; exact h2))]
  rw [reply_ok w _ _ (by rw [chatCalls_document, chatCalls_reply]; exact h3)]
  simp [compileFailureReplies]

theorem writeAndCompile_compile_threw (w : World) (latex : JsString) (s1 s2 s3 : St)
    (e : JsError)
    (hwrite : writeFileSyncAtomic w (texPathOf w) latex s1 = (Outcome.ok (), s2))
    (hcomp : runPdflatex w (texPathOf w) w.tmpDir s2 = (Outcome.threw e, s3))
    (h1 : w.chat (chatCalls s3) = none) (h2 : w.chat (chatCalls s3 + 1) = none)
    (h3 : w.chat (chatCalls s3 + 2) = none) :
    writeAndCompile w (some latex) s1 =
      (Outcome.ok (), { s3 with trace := s3.trace ++ compileFailureReplies w e.message }) := by
  have hc := compileFailure_catch w e s3 h1 h2 h3
  unfold texPathOf texFilenameOf at hwrite hcomp hc
  unfold writeAndCompile
  simp only []
  rw [bind_ok hwrite, tryCatch_threw hcomp]
  exact hc

/-- C4, amended: for every run of the handler in which generation and the
markup-file write succeed and `runPdflatex` fails with an error whose message
is `m`, and in which the three sends that follow are delivered, the handler's
effects after the failure are exactly, in order: the explanatory text reply,
the markup (.tex) file as a document, and the text reply "Error: " followed by
the first 1000 characters of `m` (at most 1000 characters of `m`, for every
length of `m`); it then ends normally, with the set of existing files unchanged
(nothing is deleted) and no binary attachment sent. -/
theorem compile_failure_replies (w : World) (text : JsString) (s s3 : St) (e : JsError)
    (hrun : runToCompile w text s = some (Outcome.threw e, s3))
    (h1 : w.chat (chatCalls s3) = none) (h2 : w.chat (chatCalls s3 + 1) = none)
    (h3 : w.chat (chatCalls s3 + 2) = none) :
    reportHandler w text s =
      (Outcome.ok (), { s3 with trace := s3.trace ++ compileFailureReplies w e.message }) ∧
    (sliceTo 1000 e.message).length ≤ 1000 := by
  refine ⟨?_, by simp [sliceTo]⟩
  apply reportHandler_of_body_ok
  unfold runToCompile at hrun
  unfold reportBody
  cases hp : parseReport text with
  | none => simp [hp] at hrun
  | some td =>
    obtain ⟨title, description⟩ := td
    simp only [hp] at hrun ⊢
    cases hr : reply w (js "Got it — generating LaTeX for \"" ++ title
        ++ js "\"... This may take a few seconds.") s with
    | mk o0 s0 =>
      simp only [hr] at hrun
      cases o0 with
      | threw e0 => simp at hrun
      | ok u0 =>
        simp only at hrun
        rw [bind_ok hr]
        cases hg : generateLatexWithRetry w title description 3 s0 with
        | mk og s1 =>
          simp only [hg] at hrun
          cases og with
          | threw eg => simp at hrun
          | ok content =>
            cases content with
            | none => simp at hrun
            | some latex =>
              simp only at hrun
              rw [tryCatch_ok hg]
              cases hw : writeFileSyncAtomic w (texPathOf w) latex s1 with
              | mk ow s2 =>
                simp only [hw] at hrun
                cases ow with
                | threw ew => simp at hrun
                | ok uw =>
                  simp only [Option.some.injEq] at hrun
                  exact writeAndCompile_compile_threw w latex s1 s2 s3 e hw hrun h1 h2 h3

/-- C4, amended, on a compiler whose first pass exits 1 and a working chat
transport: the explanatory reply, the .tex document and the "Error: " reply
follow the failure, and the .tex and .log files stay. -/
theorem compile_failure_replies_witness :
    runToCompile firstPassFailsWorld weeklyStatus (St.init []) =
      some (Outcome.threw firstPassError, firstPassFailedState) ∧
    reportHandler firstPassFailsWorld weeklyStatus (St.init []) =
      (Outcome.ok (),
        { firstPassFailedState with
          trace := firstPassFailedState.trace ++
            [Effect.reply
              (js "Failed to compile LaTeX after generation.\nSending .tex and the error:"),
             Effect.replyWithDocument (js "/srv/bot/tmp/report-0b1c.tex") (js "report-0b1c.tex"),
             Effect.reply (js "Error: pdflatex exited 1\n\n! Undefined control sequence.")] }) := by
  have h := (compile_failure_replies firstPassFailsWorld weeklyStatus (St.init [])
    firstPassFailedState firstPassError (by decide) (by decide) (by decide) (by decide)).1
  refine ⟨by decide, ?_⟩
  rw [h]
  decide

/-- C4 fails when a send of the `catch` block throws: generation and the write
succeed, `runPdflatex` fails, the explanatory reply throws, and what follows
the failure is that reply and the "Internal error" reply; the .tex document
and the "Error: " reply are never sent. -/
theorem compile_failure_reply_lost :
    runToCompile compileFailsSendFailsWorld weeklyStatus (St.init []) =
      some (Outcome.threw firstPassError, firstPassFailedState) ∧
    reportHandler compileFailsSendFailsWorld weeklyStatus (St.init []) =
      (Outcome.ok (),
        { firstPassFailedState with
          trace := firstPassFailedState.trace ++
            [Effect.reply
              (js "Failed to compile LaTeX after generation.\nSending .tex and the error:"),
             Effect.reply (js "Internal error: ETIMEDOUT")] }) ∧
    (reportHandler compileFailsSendFailsWorld weeklyStatus (St.init [])).2.trace ≠
      firstPassFailedState.trace ++
        compileFailureReplies compileFailsSendFailsWorld firstPassError.message := by
  decide

end ReportBot
